import Mathlib

/-!
# Traffic intersection simulation: shallow embedding and verification

Shallow embedding of the core agent/control logic of the traffic
simulation (vehicle.py, traffic_light.py, pedestrian.py, simulation.py).
Python floats are modelled by `ℚ`; object identity by an `id` field;
the pygame rendering layer is out of scope.
-/

namespace Traffic

/-- Modelled from the spec: `config.py` is imported by every module but is
not part of the provided sources; §6 of the spec describes it as a set of
named constants supplied at initialization.  We therefore model the
configuration surface as a parameter record. -/
structure Config where
  SAFE_DISTANCE : ℚ
  NUM_LANES : ℤ
  LANE_CHANGE_MIN_GAP : ℚ
  LANE_CHANGE_COOLDOWN : ℚ
  INTERSECTION_X : ℚ
  INTERSECTION_WIDTH : ℚ
  SCREEN_WIDTH : ℚ
  ROAD_Y_START : ℚ
  LANE_WIDTH : ℚ
  CAR_NORMAL_WIDTH : ℚ
  LIGHT_GREEN_TIME : ℚ
  LIGHT_YELLOW_TIME : ℚ
  ADAPTIVE_LIGHT_THRESHOLD : ℕ
  CROSSWALK_WAIT_TIME : ℚ
  PEDESTRIAN_SPEED : ℚ
  deriving DecidableEq, Repr

/-- Vehicle class tag (`vehicle_type` strings in vehicle.py). -/
inductive VehicleType
  | car
  | truck
  | sports
  | ambulance
  deriving DecidableEq, Repr

/-- State of `Vehicle` (vehicle.py, `Vehicle.__init__`).  The `id` field
stands in for Python object identity (`v == self` checks); `siren_state`
exists only on the `Ambulance` subclass and is carried here with value 0
for the other classes. -/
structure Vehicle where
  id : ℕ
  x : ℚ
  y : ℚ
  lane : ℤ
  direction : ℤ
  length : ℚ
  width : ℚ
  max_speed : ℚ
  acceleration : ℚ
  vehicleType : VehicleType
  speed : ℚ
  target_speed : ℚ
  lane_change_cooldown : ℚ
  passed_intersection : Bool
  stopped_at_light : Bool
  siren_state : ℚ
  deriving DecidableEq, Repr

/-- The four light states of traffic_light.py. -/
inductive LightState
  | ew_green
  | ew_yellow
  | ns_green
  | ns_yellow
  deriving DecidableEq, Repr

/-- Colors returned by `TrafficLight.get_light_state`. -/
inductive LightColor
  | green
  | yellow
  | red
  deriving DecidableEq, Repr

/-- State of `TrafficLight` (traffic_light.py). -/
structure TrafficLight where
  state : LightState
  timer : ℚ
  adaptive_mode : Bool
  deriving DecidableEq, Repr

/-- `TrafficLight.get_light_state(direction)` (traffic_light.py lines 82-91).
The `direction` argument is kept to mirror the Python signature. -/
def get_light_state (light : TrafficLight) (direction : ℤ) : LightColor :=
  match direction, light.state with
  | _, LightState.ew_green => LightColor.green
  | _, LightState.ew_yellow => LightColor.yellow
  | _, LightState.ns_green => LightColor.red
  | _, LightState.ns_yellow => LightColor.red

/-- `Vehicle.get_front_x` (vehicle.py lines 38-40). -/
def get_front_x (v : Vehicle) : ℚ :=
  if v.direction = 1 then v.x else v.x - v.length

/-- `TrafficLight.calculate_adaptive_time` (traffic_light.py lines 56-80):
count near-stopped vehicles (speed < 10) whose front is within 200 units
of `INTERSECTION_X`, split by lane group, and extend the green of the
currently active axis by 1.5 when its queue exceeds the threshold. -/
def calculate_adaptive_time (cfg : Config) (light : TrafficLight)
    (vehicles : List Vehicle) : ℚ :=
  let ew_queue := (vehicles.filter fun v =>
    decide (v.speed < 10 ∧ (v.direction = 1 ∨ v.direction = -1) ∧
      |get_front_x v - cfg.INTERSECTION_X| < 200 ∧ (v.lane = 0 ∨ v.lane = 1))).length
  let ns_queue := (vehicles.filter fun v =>
    decide (v.speed < 10 ∧ (v.direction = 1 ∨ v.direction = -1) ∧
      |get_front_x v - cfg.INTERSECTION_X| < 200 ∧ ¬(v.lane = 0 ∨ v.lane = 1))).length
  let base_time := cfg.LIGHT_GREEN_TIME
  if light.state = LightState.ew_green ∨ light.state = LightState.ew_yellow then
    if ew_queue > cfg.ADAPTIVE_LIGHT_THRESHOLD then base_time * (3/2) else base_time
  else
    if ns_queue > cfg.ADAPTIVE_LIGHT_THRESHOLD then base_time * (3/2) else base_time

/-- `TrafficLight.update` (traffic_light.py lines 24-54). -/
def TrafficLight.update (cfg : Config) (light : TrafficLight) (dt0 : ℚ)
    (vehicles : List Vehicle) (time_scale : ℚ) : TrafficLight :=
  let dt := dt0 * time_scale
  let timer := light.timer + dt
  let green_time :=
    if light.adaptive_mode then calculate_adaptive_time cfg light vehicles
    else cfg.LIGHT_GREEN_TIME
  match light.state with
  | LightState.ew_green =>
      if timer ≥ green_time then
        { state := LightState.ew_yellow, timer := 0, adaptive_mode := light.adaptive_mode }
      else { light with timer := timer }
  | LightState.ew_yellow =>
      if timer ≥ cfg.LIGHT_YELLOW_TIME then
        { state := LightState.ns_green, timer := 0, adaptive_mode := light.adaptive_mode }
      else { light with timer := timer }
  | LightState.ns_green =>
      if timer ≥ green_time then
        { state := LightState.ns_yellow, timer := 0, adaptive_mode := light.adaptive_mode }
      else { light with timer := timer }
  | LightState.ns_yellow =>
      if timer ≥ cfg.LIGHT_YELLOW_TIME then
        { state := LightState.ew_green, timer := 0, adaptive_mode := light.adaptive_mode }
      else { light with timer := timer }

/-- Cyclic successor of a light state, in the order hard-coded by
`TrafficLight.update`. -/
def nextState : LightState → LightState
  | LightState.ew_green => LightState.ew_yellow
  | LightState.ew_yellow => LightState.ns_green
  | LightState.ns_green => LightState.ns_yellow
  | LightState.ns_yellow => LightState.ew_green

/-- Duration threshold that `TrafficLight.update` compares the phase timer
against in fixed (non-adaptive) mode. -/
def phaseDuration (cfg : Config) : LightState → ℚ
  | LightState.ew_green => cfg.LIGHT_GREEN_TIME
  | LightState.ew_yellow => cfg.LIGHT_YELLOW_TIME
  | LightState.ns_green => cfg.LIGHT_GREEN_TIME
  | LightState.ns_yellow => cfg.LIGHT_YELLOW_TIME

/-- `Vehicle.distance_to_vehicle` (vehicle.py lines 120-125): front-to-rear
gap, direction aware. -/
def distance_to_vehicle (self other : Vehicle) : ℚ :=
  if self.direction = 1 then other.x - (self.x + self.length)
  else (self.x - self.length) - other.x

/-- `Vehicle.distance_to_light` (vehicle.py lines 127-134). -/
def distance_to_light (cfg : Config) (self : Vehicle) : ℚ :=
  if self.direction = 1 then cfg.INTERSECTION_X - (self.x + self.length)
  else (self.x - self.length) - (cfg.INTERSECTION_X + cfg.INTERSECTION_WIDTH)

/-- One step of the scan in `Vehicle.find_vehicle_ahead` (vehicle.py lines
104-118).  The accumulator carries the nearest candidate so far together
with its distance (`min_distance`); a strictly smaller positive distance
replaces it, so the first vehicle found wins ties, as in the Python loop. -/
def fva_step (self : Vehicle) (acc : Option (Vehicle × ℚ)) (v : Vehicle) :
    Option (Vehicle × ℚ) :=
  if v.id = self.id ∨ v.lane ≠ self.lane ∨ v.direction ≠ self.direction then acc
  else
    let d := distance_to_vehicle self v
    match acc with
    | none => if 0 < d then some (v, d) else none
    | some (w, m) => if 0 < d ∧ d < m then some (v, d) else some (w, m)

/-- `Vehicle.find_vehicle_ahead` (vehicle.py lines 104-118). -/
def find_vehicle_ahead (self : Vehicle) (vehicles : List Vehicle) : Option Vehicle :=
  (vehicles.foldl (fva_step self) none).map Prod.fst

/-- The cooldown bookkeeping at the start of `Vehicle.update`
(vehicle.py lines 47-48) and `Ambulance.update` (lines 240-241). -/
def updCooldown (self : Vehicle) (dt : ℚ) : Vehicle :=
  if self.lane_change_cooldown > 0 then
    { self with lane_change_cooldown := self.lane_change_cooldown - dt }
  else self

/-- The `gap_front` computed inside `Vehicle.can_change_lane`
(vehicle.py lines 150-155). -/
def gap_front (self v : Vehicle) : ℚ :=
  if self.direction = 1 then v.x - (self.x + self.length)
  else (self.x - self.length) - v.x

/-- The `gap_rear` computed inside `Vehicle.can_change_lane`
(vehicle.py lines 150-155). -/
def gap_rear (self v : Vehicle) : ℚ :=
  if self.direction = 1 then self.x - (v.x + v.length)
  else v.x - v.length - self.x

/-- `Vehicle.can_change_lane` (vehicle.py lines 136-162). -/
def can_change_lane (cfg : Config) (self : Vehicle) (target_lane : ℤ)
    (vehicles : List Vehicle) : Bool :=
  if self.lane_change_cooldown > 0 then false
  else if target_lane < 0 ∨ cfg.NUM_LANES ≤ target_lane then false
  else vehicles.all fun v =>
    if v.id = self.id ∨ v.lane ≠ target_lane ∨ v.direction ≠ self.direction then true
    else
      if gap_front self v > -self.length ∧ gap_rear self v > -self.length then
        decide (¬(|gap_front self v| < cfg.LANE_CHANGE_MIN_GAP ∨
          |gap_rear self v| < cfg.LANE_CHANGE_MIN_GAP))
      else true

/-- The adjacent lanes tried by `Vehicle.attempt_lane_change`
(vehicle.py lines 176-186). -/
def lanes_to_try (self : Vehicle) : List ℤ :=
  if self.direction = 1 then
    if self.lane = 0 then [1] else if self.lane = 1 then [0] else []
  else
    if self.lane = 2 then [3] else if self.lane = 3 then [2] else []

/-- The state mutation performed when a lane change is applied
(vehicle.py lines 190-192); `//` is Python float floor division. -/
def apply_lane_change (cfg : Config) (self : Vehicle) (target_lane : ℤ) : Vehicle :=
  { self with
    lane := target_lane,
    y := cfg.ROAD_Y_START + (target_lane : ℚ) * cfg.LANE_WIDTH +
      (⌊(cfg.LANE_WIDTH - self.width) / 2⌋ : ℤ),
    lane_change_cooldown := cfg.LANE_CHANGE_COOLDOWN }

/-- `Vehicle.attempt_lane_change` (vehicle.py lines 164-193): bail out when
no leader or a comfortable gap; otherwise apply the change for the first
eligible adjacent lane. -/
def attempt_lane_change (cfg : Config) (self : Vehicle) (vehicles : List Vehicle) :
    Vehicle :=
  match find_vehicle_ahead self vehicles with
  | none => self
  | some va =>
    if distance_to_vehicle self va > cfg.SAFE_DISTANCE * 2 then self
    else
      match (lanes_to_try self).find? (fun l => can_change_lane cfg self l vehicles) with
      | some l => apply_lane_change cfg self l
      | none => self

/-- The "check traffic light / determine target speed" section of
`Vehicle.update` (vehicle.py lines 50-86), which mutates `stopped_at_light`
and `target_speed`. -/
def targetStep (cfg : Config) (light : TrafficLight) (vehicles : List Vehicle)
    (self : Vehicle) : Vehicle :=
  let vehicle_ahead := find_vehicle_ahead self vehicles
  let light_distance := distance_to_light cfg self
  let should_stop_at_light :=
    0 < light_distance ∧ light_distance < 150 ∧
      (get_light_state light self.direction = LightColor.red ∨
       get_light_state light self.direction = LightColor.yellow)
  let self : Vehicle :=
    if should_stop_at_light then { self with stopped_at_light := true } else self
  if should_stop_at_light ∧ light_distance < 100 then
    let stop_distance := max (light_distance - 10) 0
    if stop_distance < 50 then { self with target_speed := 0 }
    else { self with target_speed := self.max_speed * (stop_distance / 100) }
  else
    match vehicle_ahead with
    | some va =>
      let gap := distance_to_vehicle self va
      if gap < cfg.SAFE_DISTANCE then { self with target_speed := va.speed * (9/10) }
      else if gap < cfg.SAFE_DISTANCE * 2 then { self with target_speed := va.speed }
      else { self with target_speed := self.max_speed }
    | none =>
      let self : Vehicle := { self with target_speed := self.max_speed }
      if self.stopped_at_light ∧ light_distance ≠ 0 ∧ light_distance > 50 then
        { self with stopped_at_light := false }
      else self

/-- The "accelerate/decelerate smoothly" section shared by
`Vehicle.update` (vehicle.py lines 88-93) and `Ambulance.update`
(lines 267-271). -/
def speedStep (self : Vehicle) (dt : ℚ) : Vehicle :=
  if self.speed < self.target_speed then
    { self with speed := min (self.speed + self.acceleration * dt) self.target_speed }
  else if self.speed > self.target_speed then
    { self with
      speed := max (max (self.speed - self.acceleration * (3/2) * dt) self.target_speed) 0 }
  else self

/-- The "move vehicle / mark if passed intersection" section shared by
`Vehicle.update` (vehicle.py lines 95-102) and `Ambulance.update`
(lines 273-278). -/
def moveStep (cfg : Config) (self : Vehicle) (dt : ℚ) : Vehicle :=
  let self : Vehicle := { self with x := self.x + self.speed * dt * (self.direction : ℚ) }
  { self with
    passed_intersection :=
      if (self.direction = 1 ∧ self.x > cfg.INTERSECTION_X + cfg.INTERSECTION_WIDTH) ∨
         (self.direction = -1 ∧ self.x < cfg.INTERSECTION_X) then true
      else self.passed_intersection }

/-- `Vehicle.update` (vehicle.py lines 42-102), for the non-ambulance
classes (NormalCar, Truck, SportsCar share it without override):
scale `dt`, decrement the cooldown, select the target speed, integrate
the speed, move. -/
def Vehicle.update (cfg : Config) (self : Vehicle) (dt0 : ℚ)
    (vehicles : List Vehicle) (light : TrafficLight) (time_scale : ℚ) : Vehicle :=
  let dt := dt0 * time_scale
  moveStep cfg (speedStep (targetStep cfg light vehicles (updCooldown self dt)) dt) dt

/-- The guard of the scan in `Ambulance.clear_path` (vehicle.py lines
282-291): a non-ambulance vehicle in the ambulance's lane and direction,
strictly ahead and closer than 150 units. -/
def clear_path_cond (self v : Vehicle) : Prop :=
  ¬(v.id = self.id ∨ v.vehicleType = VehicleType.ambulance) ∧
    v.lane = self.lane ∧ v.direction = self.direction ∧
    0 < distance_to_vehicle self v ∧ distance_to_vehicle self v < 150

instance (self v : Vehicle) : Decidable (clear_path_cond self v) := by
  unfold clear_path_cond
  infer_instance

/-- Fuel-indexed loop of `Ambulance.clear_path`: Python iterates over the
shared list and mutates entries in place, so a later `attempt_lane_change`
observes earlier mutations.  `i` is the index being processed. -/
def clear_path_go (cfg : Config) (self : Vehicle) :
    ℕ → ℕ → List Vehicle → List Vehicle
  | 0, _, vs => vs
  | n + 1, i, vs =>
    match vs[i]? with
    | none => vs
    | some v =>
      let vs' :=
        if clear_path_cond self v then vs.set i (attempt_lane_change cfg v vs)
        else vs
      clear_path_go cfg self n (i + 1) vs'

/-- `Ambulance.clear_path` (vehicle.py lines 280-291). -/
def clear_path (cfg : Config) (self : Vehicle) (vehicles : List Vehicle) :
    List Vehicle :=
  clear_path_go cfg self vehicles.length 0 vehicles

/-- Python `x % 2` on a float, used by the siren animation. -/
def fmod2 (q : ℚ) : ℚ := q - 2 * (⌊q / 2⌋ : ℤ)

/-- The target-speed selection of `Ambulance.update` (vehicle.py lines
246-265): ignore red lights except a soft slowdown, and follow with half
the normal safe distance. -/
def ambTargetStep (cfg : Config) (light : TrafficLight) (vehicles : List Vehicle)
    (self : Vehicle) : Vehicle :=
  let light_distance := distance_to_light cfg self
  let should_slow_at_light :=
    0 < light_distance ∧ light_distance < 80 ∧
      get_light_state light self.direction = LightColor.red
  let vehicle_ahead := find_vehicle_ahead self vehicles
  if should_slow_at_light ∧ light_distance < 60 then
    { self with target_speed := self.max_speed * (1/2) }
  else
    match vehicle_ahead with
    | some va =>
      let gap := distance_to_vehicle self va
      if gap < cfg.SAFE_DISTANCE * (1/2) then
        { self with target_speed := va.speed * (95/100) }
      else { self with target_speed := self.max_speed }
    | none => { self with target_speed := self.max_speed }

/-- `Ambulance.update` (vehicle.py lines 233-278).  Returns the updated
ambulance together with the vehicle list as mutated by `clear_path`
(cross-agent side effect, performed before the ambulance selects its own
target speed). -/
def Ambulance.update (cfg : Config) (self : Vehicle) (dt0 : ℚ)
    (vehicles : List Vehicle) (light : TrafficLight) (time_scale : ℚ) :
    Vehicle × List Vehicle :=
  let dt := dt0 * time_scale
  let self : Vehicle := { self with siren_state := fmod2 (self.siren_state + dt * 5) }
  let self := updCooldown self dt
  let vehicles := clear_path cfg self vehicles
  (moveStep cfg (speedStep (ambTargetStep cfg light vehicles self) dt) dt, vehicles)

/-- The three pedestrian states of pedestrian.py. -/
inductive PedState
  | waiting
  | crossing
  | done
  deriving DecidableEq, Repr

/-- State of `Pedestrian` (pedestrian.py).  `side_top` is `side == "top"`. -/
structure Pedestrian where
  side_top : Bool
  direction : ℤ
  state : PedState
  wait_timer : ℚ
  x : ℚ
  y : ℚ
  target_y : ℚ
  deriving DecidableEq, Repr

/-- `Pedestrian.update` (pedestrian.py lines 37-59). -/
def Pedestrian.update (cfg : Config) (p : Pedestrian) (dt0 : ℚ)
    (light : TrafficLight) (time_scale : ℚ) : Pedestrian :=
  let dt := dt0 * time_scale
  match p.state with
  | PedState.waiting =>
    let wt := p.wait_timer + dt
    if wt > cfg.CROSSWALK_WAIT_TIME ∧
        (light.state = LightState.ns_green ∨ light.state = LightState.ns_yellow) then
      { p with wait_timer := wt, state := PedState.crossing }
    else { p with wait_timer := wt }
  | PedState.crossing =>
    if p.side_top then
      let y := p.y + cfg.PEDESTRIAN_SPEED * dt
      if y ≥ p.target_y then { p with y := y, state := PedState.done }
      else { p with y := y }
    else
      let y := p.y - cfg.PEDESTRIAN_SPEED * dt
      if y ≤ p.target_y then { p with y := y, state := PedState.done }
      else { p with y := y }
  | PedState.done => p

/-- `TrafficSimulation.spawn_vehicle` (simulation.py lines 72-99), with the
random choices (direction, lane, vehicle class) resolved to parameters:
`mk x y lane direction` stands for `create_random_vehicle`. -/
def spawn_vehicle (cfg : Config) (dirRight : Bool) (lane : ℤ)
    (mk : ℚ → ℚ → ℤ → ℤ → Vehicle) (vehicles : List Vehicle) : List Vehicle :=
  let direction : ℤ := if dirRight then 1 else -1
  let x : ℚ := if dirRight then -100 else cfg.SCREEN_WIDTH + 100
  let y : ℚ := cfg.ROAD_Y_START + (lane : ℚ) * cfg.LANE_WIDTH +
    (⌊(cfg.LANE_WIDTH - cfg.CAR_NORMAL_WIDTH) / 2⌋ : ℤ)
  let can_spawn := vehicles.all fun v =>
    decide (¬(v.lane = lane ∧ v.direction = direction ∧
      ((direction = 1 ∧ v.x < 200) ∨
       (direction = -1 ∧ v.x > cfg.SCREEN_WIDTH - 200))))
  if can_spawn then vehicles ++ [mk x y lane direction] else vehicles

/-- The guard of the light-braking branch of `Vehicle.update`
(vehicle.py lines 57-63): within 150 units of an unfavourable light and
within the 100-unit braking window. -/
def braking_for_light (cfg : Config) (light : TrafficLight) (self : Vehicle) : Prop :=
  (0 < distance_to_light cfg self ∧ distance_to_light cfg self < 150 ∧
    (get_light_state light self.direction = LightColor.red ∨
     get_light_state light self.direction = LightColor.yellow)) ∧
  distance_to_light cfg self < 100

/-- The adaptive green duration as worded by the spec (§4.2) and claim C5:
count near-stopped vehicles within 200 units of the intersection,
partitioned into lane group `{0,1}` versus lane group `{2,3}`; if the
count for the currently-green axis exceeds the threshold, the green
duration is `base × 1.5`, else `base`.  Stated for comparison with
`calculate_adaptive_time`. -/
def adaptiveTimeSpec (cfg : Config) (state : LightState) (vehicles : List Vehicle) : ℚ :=
  let ew := (vehicles.filter fun v =>
    decide (v.speed < 10 ∧ |get_front_x v - cfg.INTERSECTION_X| < 200 ∧
      (v.lane = 0 ∨ v.lane = 1))).length
  let ns := (vehicles.filter fun v =>
    decide (v.speed < 10 ∧ |get_front_x v - cfg.INTERSECTION_X| < 200 ∧
      (v.lane = 2 ∨ v.lane = 3))).length
  let active :=
    if state = LightState.ew_green ∨ state = LightState.ew_yellow then ew else ns
  if active > cfg.ADAPTIVE_LIGHT_THRESHOLD then cfg.LIGHT_GREEN_TIME * (3/2)
  else cfg.LIGHT_GREEN_TIME

/-- Numeric rank of a pedestrian state along the `waiting → crossing → done`
progression. -/
def pedRank : PedState → ℕ
  | PedState.waiting => 0
  | PedState.crossing => 1
  | PedState.done => 2

/-- A concrete configuration used for scenario theorems.  `config.py` is
not part of the provided sources, so the values here instantiate the
parameter record with values in the ranges the spec suggests
(`SAFE_DISTANCE` "of, say, 80", four lanes in two direction groups). -/
def cfgW : Config where
  SAFE_DISTANCE := 80
  NUM_LANES := 4
  LANE_CHANGE_MIN_GAP := 60
  LANE_CHANGE_COOLDOWN := 2
  INTERSECTION_X := 500
  INTERSECTION_WIDTH := 100
  SCREEN_WIDTH := 1400
  ROAD_Y_START := 300
  LANE_WIDTH := 40
  CAR_NORMAL_WIDTH := 20
  LIGHT_GREEN_TIME := 5
  LIGHT_YELLOW_TIME := 2
  ADAPTIVE_LIGHT_THRESHOLD := 3
  CROSSWALK_WAIT_TIME := 2
  PEDESTRIAN_SPEED := 30

/-- A concrete vehicle for scenario theorems (fields not under test get
neutral values). -/
def mkVeh (id : ℕ) (x : ℚ) (lane direction : ℤ) (speed max_speed : ℚ) : Vehicle where
  id := id
  x := x
  y := 0
  lane := lane
  direction := direction
  length := 10
  width := 20
  max_speed := max_speed
  acceleration := 10
  vehicleType := VehicleType.car
  speed := speed
  target_speed := max_speed
  lane_change_cooldown := 0
  passed_intersection := false
  stopped_at_light := false
  siren_state := 0

/-- An east-west-green light for scenario theorems. -/
def lightG : TrafficLight := ⟨LightState.ew_green, 0, false⟩

/-- A north-south-green light (red for the east-west directions), for
scenario theorems. -/
def lightR : TrafficLight := ⟨LightState.ns_green, 0, false⟩

/-- A pedestrian that has finished crossing, for the C9 witness. -/
def pedDone : Pedestrian := ⟨true, 1, PedState.done, 0, 0, 0, 100⟩

/-- A near-stopped vehicle queued at the intersection in lane 0, for the
C5 witness. -/
def queuedVeh (id : ℕ) : Vehicle := mkVeh id 450 0 1 5 60

/-- An ambulance in lane 0 with its front at `x = 10`, for the C7
scenarios. -/
def ambV : Vehicle := { mkVeh 0 0 0 1 50 80 with vehicleType := VehicleType.ambulance }

/-- A non-ambulance vehicle 100 units ahead of the ambulance in the same
lane, cooldown expired, for the C7 scenarios. -/
def blkV : Vehicle := mkVeh 1 110 0 1 50 50

/-- A slow leader 70 units ahead of `blkV` in lane 0 (inside
`2 × SAFE_DISTANCE`), for the positive C7 scenario. -/
def ldrV : Vehicle := mkVeh 2 190 0 1 30 30

/-- A same-lane, same-direction vehicle at `x = 150`: inside the code's
spawn buffer (`x < 200`) but more than 200 units from the entry point at
`x = -100`, for the C8 counterexample. -/
def vS8 : Vehicle := mkVeh 3 150 0 1 50 50

section ProjectionLemmas

variable (s : Vehicle) (d : ℚ)

@[simp] lemma updCooldown_id : (updCooldown s d).id = s.id := by
  unfold updCooldown; split <;> rfl

@[simp] lemma updCooldown_x : (updCooldown s d).x = s.x := by
  unfold updCooldown; split <;> rfl

@[simp] lemma updCooldown_y : (updCooldown s d).y = s.y := by
  unfold updCooldown; split <;> rfl

@[simp] lemma updCooldown_lane : (updCooldown s d).lane = s.lane := by
  unfold updCooldown; split <;> rfl

@[simp] lemma updCooldown_direction : (updCooldown s d).direction = s.direction := by
  unfold updCooldown; split <;> rfl

@[simp] lemma updCooldown_length : (updCooldown s d).length = s.length := by
  unfold updCooldown; split <;> rfl

@[simp] lemma updCooldown_max_speed : (updCooldown s d).max_speed = s.max_speed := by
  unfold updCooldown; split <;> rfl

@[simp] lemma updCooldown_acceleration : (updCooldown s d).acceleration = s.acceleration := by
  unfold updCooldown; split <;> rfl

@[simp] lemma updCooldown_speed : (updCooldown s d).speed = s.speed := by
  unfold updCooldown; split <;> rfl

@[simp] lemma updCooldown_target_speed : (updCooldown s d).target_speed = s.target_speed := by
  unfold updCooldown; split <;> rfl

lemma distance_to_light_updCooldown (cfg : Config) :
    distance_to_light cfg (updCooldown s d) = distance_to_light cfg s := by
  unfold distance_to_light; simp

lemma distance_to_vehicle_updCooldown (v : Vehicle) :
    distance_to_vehicle (updCooldown s d) v = distance_to_vehicle s v := by
  unfold distance_to_vehicle; simp

lemma fva_step_updCooldown : fva_step (updCooldown s d) = fva_step s := by
  unfold updCooldown; split <;> rfl

lemma find_vehicle_ahead_updCooldown (vs : List Vehicle) :
    find_vehicle_ahead (updCooldown s d) vs = find_vehicle_ahead s vs := by
  unfold find_vehicle_ahead; rw [fva_step_updCooldown]

@[simp] lemma speedStep_target_speed : (speedStep s d).target_speed = s.target_speed := by
  unfold speedStep; split_ifs <;> rfl

@[simp] lemma speedStep_max_speed : (speedStep s d).max_speed = s.max_speed := by
  unfold speedStep; split_ifs <;> rfl

@[simp] lemma moveStep_speed (cfg : Config) : (moveStep cfg s d).speed = s.speed := rfl

@[simp] lemma moveStep_target_speed (cfg : Config) :
    (moveStep cfg s d).target_speed = s.target_speed := rfl

@[simp] lemma moveStep_max_speed (cfg : Config) :
    (moveStep cfg s d).max_speed = s.max_speed := rfl

end ProjectionLemmas

section TargetStepLemmas

variable (cfg : Config) (light : TrafficLight) (vs : List Vehicle) (s : Vehicle)

@[simp] lemma targetStep_speed : (targetStep cfg light vs s).speed = s.speed := by
  unfold targetStep
  cases h : find_vehicle_ahead s vs <;> simp only [h] <;> split_ifs <;> rfl

@[simp] lemma targetStep_max_speed : (targetStep cfg light vs s).max_speed = s.max_speed := by
  unfold targetStep
  cases h : find_vehicle_ahead s vs <;> simp only [h] <;> split_ifs <;> rfl

@[simp] lemma targetStep_acceleration :
    (targetStep cfg light vs s).acceleration = s.acceleration := by
  unfold targetStep
  cases h : find_vehicle_ahead s vs <;> simp only [h] <;> split_ifs <;> rfl

@[simp] lemma ambTargetStep_speed : (ambTargetStep cfg light vs s).speed = s.speed := by
  unfold ambTargetStep
  cases h : find_vehicle_ahead s vs <;> simp only [h] <;> split_ifs <;> rfl

@[simp] lemma ambTargetStep_max_speed :
    (ambTargetStep cfg light vs s).max_speed = s.max_speed := by
  unfold ambTargetStep
  cases h : find_vehicle_ahead s vs <;> simp only [h] <;> split_ifs <;> rfl

@[simp] lemma ambTargetStep_acceleration :
    (ambTargetStep cfg light vs s).acceleration = s.acceleration := by
  unfold ambTargetStep
  cases h : find_vehicle_ahead s vs <;> simp only [h] <;> split_ifs <;> rfl

end TargetStepLemmas

lemma fva_foldl_mem (self : Vehicle) :
    ∀ (vs : List Vehicle) (acc : Option (Vehicle × ℚ)) (v : Vehicle) (d : ℚ),
      vs.foldl (fva_step self) acc = some (v, d) → acc = some (v, d) ∨ v ∈ vs := by
  intro vs
  induction vs with
  | nil => intro acc v d h; exact Or.inl h
  | cons w rest ih =>
    intro acc v d h
    simp only [List.foldl_cons] at h
    rcases ih _ _ _ h with h' | h'
    · unfold fva_step at h'
      split at h'
      · exact Or.inl h'
      · cases acc with
        | none =>
          dsimp only at h'
          split at h'
          · simp only [Option.some.injEq, Prod.mk.injEq] at h'
            obtain ⟨rfl, -⟩ := h'
            exact Or.inr (List.mem_cons_self _ _)
          · cases h'
        | some p =>
          obtain ⟨w0, m⟩ := p
          dsimp only at h'
          split at h'
          · simp only [Option.some.injEq, Prod.mk.injEq] at h'
            obtain ⟨rfl, -⟩ := h'
            exact Or.inr (List.mem_cons_self _ _)
          · exact Or.inl h'
    · exact Or.inr (List.mem_cons_of_mem _ h')

lemma find_vehicle_ahead_mem {self va : Vehicle} {vs : List Vehicle}
    (h : find_vehicle_ahead self vs = some va) : va ∈ vs := by
  unfold find_vehicle_ahead at h
  cases hf : vs.foldl (fva_step self) none with
  | none => rw [hf] at h; cases h
  | some p =>
    obtain ⟨v, dd⟩ := p
    rw [hf] at h
    have hv : v = va := by simpa using h
    subst hv
    rcases fva_foldl_mem self vs none v dd hf with h' | h'
    · cases h'
    · exact h'

lemma speedStep_nonneg {s : Vehicle} {d : ℚ} (h0 : 0 ≤ s.speed)
    (ha : 0 ≤ s.acceleration) (hd : 0 ≤ d) : 0 ≤ (speedStep s d).speed := by
  unfold speedStep
  split_ifs with h1 h2
  · exact le_min (add_nonneg h0 (mul_nonneg ha hd)) (h0.trans h1.le)
  · exact le_max_right _ 0
  · exact h0

lemma speedStep_le {s : Vehicle} {d M : ℚ} (hs : s.speed ≤ M)
    (ht : s.target_speed ≤ M) (hM : 0 ≤ M) (ha : 0 ≤ s.acceleration)
    (hd : 0 ≤ d) : (speedStep s d).speed ≤ M := by
  unfold speedStep
  split_ifs with h1 h2
  · exact (min_le_right _ _).trans ht
  · refine max_le (max_le ?_ ht) hM
    nlinarith
  · exact hs

lemma targetStep_target_le {cfg : Config} {light : TrafficLight}
    {vs : List Vehicle} {s : Vehicle} (hmax : 0 ≤ s.max_speed)
    (hveh : ∀ v ∈ vs, 0 ≤ v.speed ∧ v.speed ≤ s.max_speed) :
    (targetStep cfg light vs s).target_speed ≤ s.max_speed := by
  unfold targetStep
  dsimp only
  by_cases hss : 0 < distance_to_light cfg s ∧ distance_to_light cfg s < 150 ∧
      (get_light_state light s.direction = LightColor.red ∨
       get_light_state light s.direction = LightColor.yellow)
  · rw [if_pos hss]
    by_cases hld : distance_to_light cfg s < 100
    · rw [if_pos ⟨hss, hld⟩]
      by_cases hsd : max (distance_to_light cfg s - 10) 0 < 50
      · rw [if_pos hsd]
        exact hmax
      · rw [if_neg hsd]
        show s.max_speed * (max (distance_to_light cfg s - 10) 0 / 100) ≤ s.max_speed
        nlinarith [mul_nonneg hmax
          (show (0:ℚ) ≤ 100 - max (distance_to_light cfg s - 10) 0 by
            have h1 : max (distance_to_light cfg s - 10) 0 ≤ 90 :=
              max_le (by linarith) (by norm_num)
            linarith)]
    · rw [if_neg (fun h => hld h.2)]
      cases hfa : find_vehicle_ahead s vs with
      | none =>
        dsimp only
        split_ifs <;> exact le_rfl
      | some va =>
        obtain ⟨hva0, hva1⟩ := hveh va (find_vehicle_ahead_mem hfa)
        dsimp only
        split_ifs
        · show va.speed * (9/10) ≤ s.max_speed
          linarith
        · exact hva1
        · exact le_rfl
  · rw [if_neg hss, if_neg (fun h => hss h.1)]
    cases hfa : find_vehicle_ahead s vs with
    | none =>
      dsimp only
      split_ifs <;> exact le_rfl
    | some va =>
      obtain ⟨hva0, hva1⟩ := hveh va (find_vehicle_ahead_mem hfa)
      dsimp only
      split_ifs
      · show va.speed * (9/10) ≤ s.max_speed
        linarith
      · exact hva1
      · exact le_rfl

lemma ambTargetStep_target_le {cfg : Config} {light : TrafficLight}
    {vs : List Vehicle} {s : Vehicle} (hmax : 0 ≤ s.max_speed)
    (hveh : ∀ v ∈ vs, 0 ≤ v.speed ∧ v.speed ≤ s.max_speed) :
    (ambTargetStep cfg light vs s).target_speed ≤ s.max_speed := by
  unfold ambTargetStep
  dsimp only
  by_cases hc : (0 < distance_to_light cfg s ∧ distance_to_light cfg s < 80 ∧
      get_light_state light s.direction = LightColor.red) ∧ distance_to_light cfg s < 60
  · rw [if_pos hc]
    show s.max_speed * (1/2) ≤ s.max_speed
    linarith
  · rw [if_neg hc]
    cases hfa : find_vehicle_ahead s vs with
    | none => exact le_rfl
    | some va =>
      obtain ⟨hva0, hva1⟩ := hveh va (find_vehicle_ahead_mem hfa)
      dsimp only
      split_ifs
      · show va.speed * (95/100) ≤ s.max_speed
        linarith
      · exact le_rfl

lemma attempt_lane_change_cases (cfg : Config) (v : Vehicle) (vs : List Vehicle) :
    attempt_lane_change cfg v vs = v ∨
      ∃ l, l ∈ lanes_to_try v ∧ can_change_lane cfg v l vs = true ∧
        attempt_lane_change cfg v vs = apply_lane_change cfg v l := by
  unfold attempt_lane_change
  cases h : find_vehicle_ahead v vs with
  | none => exact Or.inl rfl
  | some va =>
    dsimp only
    split_ifs with h1
    · exact Or.inl rfl
    · cases h2 : (lanes_to_try v).find? (fun l => can_change_lane cfg v l vs) with
      | none => exact Or.inl rfl
      | some l =>
        refine Or.inr ⟨l, List.mem_of_find?_eq_some h2, ?_, rfl⟩
        simpa using List.find?_some h2

lemma attempt_lane_change_speed (cfg : Config) (v : Vehicle) (vs : List Vehicle) :
    (attempt_lane_change cfg v vs).speed = v.speed := by
  rcases attempt_lane_change_cases cfg v vs with h | ⟨l, -, -, h⟩ <;> (rw [h]; try rfl)

lemma clear_path_go_getElem_lt (cfg : Config) (self : Vehicle) :
    ∀ (n i : ℕ) (vs : List Vehicle) (j : ℕ), j < i →
      (clear_path_go cfg self n i vs)[j]? = vs[j]? := by
  intro n
  induction n with
  | zero => intro i vs j _; rfl
  | succ n ih =>
    intro i vs j hj
    unfold clear_path_go
    cases hv : vs[i]? with
    | none => rfl
    | some v =>
      dsimp only
      split_ifs with hc
      · rw [ih (i+1) _ j (by omega)]
        exact List.getElem?_set_ne (by omega)
      · exact ih (i+1) _ j (by omega)

lemma clear_path_go_not_cond (cfg : Config) (self : Vehicle) :
    ∀ (n i : ℕ) (vs : List Vehicle) (j : ℕ) (v : Vehicle), i ≤ j →
      vs[j]? = some v → ¬clear_path_cond self v →
      (clear_path_go cfg self n i vs)[j]? = some v := by
  intro n
  induction n with
  | zero => intro i vs j v _ hj _; exact hj
  | succ n ih =>
    intro i vs j v hij hj hcond
    unfold clear_path_go
    cases hv : vs[i]? with
    | none => exact hj
    | some w =>
      dsimp only
      by_cases hji : i = j
      · subst hji
        rw [hv] at hj
        have hwv : w = v := by simpa using hj
        subst hwv
        rw [if_neg hcond]
        rw [clear_path_go_getElem_lt cfg self n (i+1) vs i (by omega)]
        exact hv
      · have hij' : i + 1 ≤ j := by omega
        split_ifs with hc
        · refine ih (i+1) _ j v hij' ?_ hcond
          rw [List.getElem?_set_ne (by omega : i ≠ j)]
          exact hj
        · exact ih (i+1) _ j v hij' hj hcond

lemma clear_path_not_cond (cfg : Config) (self : Vehicle) (vs : List Vehicle)
    (j : ℕ) (v : Vehicle) (hj : vs[j]? = some v)
    (hcond : ¬clear_path_cond self v) : (clear_path cfg self vs)[j]? = some v :=
  clear_path_go_not_cond cfg self vs.length 0 vs j v (Nat.zero_le j) hj hcond

lemma clear_path_go_speed (cfg : Config) (self : Vehicle) (Q : ℚ → Prop) :
    ∀ (n i : ℕ) (vs : List Vehicle), (∀ v ∈ vs, Q v.speed) →
      ∀ v' ∈ clear_path_go cfg self n i vs, Q v'.speed := by
  intro n
  induction n with
  | zero => intro i vs h; exact h
  | succ n ih =>
    intro i vs h
    unfold clear_path_go
    cases hv : vs[i]? with
    | none => exact h
    | some v =>
      dsimp only
      split_ifs with hc
      · refine ih (i+1) _ ?_
        intro v' hv'
        rcases List.mem_or_eq_of_mem_set hv' with h1 | h1
        · exact h _ h1
        · rw [h1, attempt_lane_change_speed]
          exact h v (List.getElem?_mem hv)
      · exact ih (i+1) _ h

lemma clear_path_speed (cfg : Config) (self : Vehicle) (Q : ℚ → Prop)
    (vs : List Vehicle) (h : ∀ v ∈ vs, Q v.speed) :
    ∀ v' ∈ clear_path cfg self vs, Q v'.speed :=
  clear_path_go_speed cfg self Q vs.length 0 vs h

/-- C10: the per-direction light query is independent of its direction
argument: for every light state and any two direction values,
`get_light_state` returns the same color, and that color is green for
`ew_green`, yellow for `ew_yellow`, and red for both ns states. -/
theorem C10_get_light_state_direction_independent :
    ∀ (light : TrafficLight) (d1 d2 : ℤ),
      get_light_state light d1 = get_light_state light d2 ∧
      get_light_state light d1 =
        (match light.state with
         | LightState.ew_green => LightColor.green
         | LightState.ew_yellow => LightColor.yellow
         | LightState.ns_green => LightColor.red
         | LightState.ns_yellow => LightColor.red) := by
  intro light d1 d2
  obtain ⟨s, t, a⟩ := light
  cases s <;> exact ⟨rfl, rfl⟩

/-- C4: the traffic light's transitions are strictly cyclic in the order
`ew_green → ew_yellow → ns_green → ns_yellow → ew_green` (each update
either keeps the state, accumulating the timer, or moves to the cyclic
successor), the phase timer is reset to 0 on every transition, in fixed
mode a transition happens exactly when the accumulated timer reaches the
phase duration, and the four phase durations sum to
`2 × (green + yellow)`. -/
theorem C4_light_fsm_cyclic :
    (∀ (cfg : Config) (light : TrafficLight) (dt ts : ℚ) (vehicles : List Vehicle),
      (((TrafficLight.update cfg light dt vehicles ts).state = light.state ∧
        (TrafficLight.update cfg light dt vehicles ts).timer = light.timer + dt * ts) ∨
       ((TrafficLight.update cfg light dt vehicles ts).state = nextState light.state ∧
        (TrafficLight.update cfg light dt vehicles ts).timer = 0)) ∧
      (light.adaptive_mode = false →
        ((TrafficLight.update cfg light dt vehicles ts).state ≠ light.state ↔
          phaseDuration cfg light.state ≤ light.timer + dt * ts))) ∧
    (∀ cfg : Config,
      phaseDuration cfg LightState.ew_green + phaseDuration cfg LightState.ew_yellow +
        phaseDuration cfg LightState.ns_green + phaseDuration cfg LightState.ns_yellow =
        2 * (cfg.LIGHT_GREEN_TIME + cfg.LIGHT_YELLOW_TIME)) := by
  constructor
  · intro cfg light dt ts vehicles
    obtain ⟨s, t, a⟩ := light
    constructor
    · cases s <;>
        (unfold TrafficLight.update; dsimp only; split_ifs <;> simp [nextState])
    · intro ha
      subst ha
      cases s <;>
        (unfold TrafficLight.update phaseDuration; dsimp only; split_ifs with h <;>
          simp_all)
  · intro cfg
    unfold phaseDuration
    ring

/-- C4 witness: with green duration 5, the fixed-mode light at
`(ew_green, timer 0)` transitions away from `ew_green` on an update with
`dt = 5`. -/
theorem C4_witness :
    (TrafficLight.update cfgW ⟨LightState.ew_green, 0, false⟩ 5 [] 1).state ≠
      LightState.ew_green := by
  refine ((C4_light_fsm_cyclic.1 cfgW ⟨LightState.ew_green, 0, false⟩ 5 1 []).2 rfl).mpr ?_
  norm_num [phaseDuration, cfgW]

/-- C9: a pedestrian only ever moves forward along
`waiting → crossing → done`: the state rank never decreases, a `done`
pedestrian is left completely unchanged by further updates, the state
becomes `done` exactly when a crossing pedestrian's updated y position
first reaches or crosses its target (side-dependent comparison), and no
update moves a crossing pedestrian back to waiting. -/
theorem C9_pedestrian_progress :
    ∀ (cfg : Config) (p : Pedestrian) (dt ts : ℚ) (light : TrafficLight),
      pedRank p.state ≤ pedRank (Pedestrian.update cfg p dt light ts).state ∧
      (p.state = PedState.done → Pedestrian.update cfg p dt light ts = p) ∧
      ((Pedestrian.update cfg p dt light ts).state = PedState.done ↔
        p.state = PedState.done ∨
          (p.state = PedState.crossing ∧
            (if p.side_top = true then
              p.y + cfg.PEDESTRIAN_SPEED * (dt * ts) ≥ p.target_y
             else p.y - cfg.PEDESTRIAN_SPEED * (dt * ts) ≤ p.target_y))) ∧
      ¬(p.state = PedState.crossing ∧
        (Pedestrian.update cfg p dt light ts).state = PedState.waiting) := by
  intro cfg p dt ts light
  obtain ⟨st, dir, s, wt, x, y, ty⟩ := p
  cases s <;> (unfold Pedestrian.update; dsimp only) <;>
    refine ⟨?_, ?_, ?_, ?_⟩ <;> (try split_ifs) <;> simp_all [pedRank]

/-- C9 witness: a `done` pedestrian is unchanged by an update. -/
theorem C9_witness : Pedestrian.update cfgW pedDone 1 lightG 1 = pedDone :=
  (C9_pedestrian_progress cfgW pedDone 1 1 lightG).2.1 rfl

/-- C5: in adaptive mode the green duration used by the light update is
`calculate_adaptive_time`, recomputed from the current vehicle list on
every tick (a green phase ends exactly when the accumulated timer reaches
it), and on any vehicle list satisfying the data-model invariants
(direction ∈ {+1,-1}, lane ∈ {0,1,2,3}) it equals the spec's formula:
count near-stopped vehicles within 200 units of the intersection
partitioned into lanes {0,1} versus {2,3}, and return `base × 1.5` when
the currently-green axis count exceeds the threshold, else `base`. -/
theorem C5_adaptive_green :
    (∀ (cfg : Config) (light : TrafficLight) (vehicles : List Vehicle),
      (∀ v ∈ vehicles, (v.direction = 1 ∨ v.direction = -1) ∧
        (v.lane = 0 ∨ v.lane = 1 ∨ v.lane = 2 ∨ v.lane = 3)) →
      calculate_adaptive_time cfg light vehicles =
        adaptiveTimeSpec cfg light.state vehicles) ∧
    (∀ (cfg : Config) (light : TrafficLight) (dt ts : ℚ) (vehicles : List Vehicle),
      light.adaptive_mode = true →
      (light.state = LightState.ew_green ∨ light.state = LightState.ns_green) →
      ((TrafficLight.update cfg light dt vehicles ts).state ≠ light.state ↔
        calculate_adaptive_time cfg light vehicles ≤ light.timer + dt * ts)) := by
  constructor
  · intro cfg light vehicles hv
    unfold calculate_adaptive_time adaptiveTimeSpec
    dsimp only
    have hew : (vehicles.filter fun v =>
        decide (v.speed < 10 ∧ (v.direction = 1 ∨ v.direction = -1) ∧
          |get_front_x v - cfg.INTERSECTION_X| < 200 ∧ (v.lane = 0 ∨ v.lane = 1))) =
        vehicles.filter fun v =>
          decide (v.speed < 10 ∧ |get_front_x v - cfg.INTERSECTION_X| < 200 ∧
            (v.lane = 0 ∨ v.lane = 1)) := by
      apply List.filter_congr
      intro v hvm
      rcases hv v hvm with ⟨hd, -⟩
      simp only [decide_eq_decide]
      tauto
    have hns : (vehicles.filter fun v =>
        decide (v.speed < 10 ∧ (v.direction = 1 ∨ v.direction = -1) ∧
          |get_front_x v - cfg.INTERSECTION_X| < 200 ∧ ¬(v.lane = 0 ∨ v.lane = 1))) =
        vehicles.filter fun v =>
          decide (v.speed < 10 ∧ |get_front_x v - cfg.INTERSECTION_X| < 200 ∧
            (v.lane = 2 ∨ v.lane = 3)) := by
      apply List.filter_congr
      intro v hvm
      rcases hv v hvm with ⟨hd, hl⟩
      simp only [decide_eq_decide]
      rcases hl with h | h | h | h <;> rcases hd with hd | hd <;> simp [h, hd]
    rw [hew, hns]
    by_cases hc : light.state = LightState.ew_green ∨ light.state = LightState.ew_yellow <;>
      simp [hc]
  · intro cfg light dt ts vehicles ha hs
    obtain ⟨s, t, a⟩ := light
    subst ha
    rcases hs with h | h <;> subst h <;>
      (unfold TrafficLight.update; dsimp only; split_ifs with h <;> simp_all)

/-- C5 witness: with four near-stopped vehicles queued on the east-west
axis (threshold 3), the adaptive green duration is `5 × 1.5 = 15/2`. -/
theorem C5_witness :
    calculate_adaptive_time cfgW ⟨LightState.ew_green, 0, true⟩
        [queuedVeh 0, queuedVeh 1, queuedVeh 2, queuedVeh 3] =
      adaptiveTimeSpec cfgW LightState.ew_green
        [queuedVeh 0, queuedVeh 1, queuedVeh 2, queuedVeh 3] := by
  refine C5_adaptive_green.1 cfgW ⟨LightState.ew_green, 0, true⟩ _ ?_
  intro v hv
  simp only [queuedVeh, mkVeh, List.mem_cons, List.not_mem_nil, or_false] at hv
  rcases hv with rfl | rfl | rfl | rfl <;> norm_num

/-- C2: a (non-ambulance) vehicle strictly before the stop line, within
100 units of it, facing a red or yellow light, sets its target speed that
tick to `max_speed × (remaining/100)` where
`remaining = max(light_distance − 10, 0)`, and to exactly 0 once the
remaining stop distance is below 50. -/
theorem C2_red_light_braking :
    ∀ (cfg : Config) (self : Vehicle) (dt ts : ℚ) (vehicles : List Vehicle)
      (light : TrafficLight),
      0 < distance_to_light cfg self →
      distance_to_light cfg self < 100 →
      (get_light_state light self.direction = LightColor.red ∨
       get_light_state light self.direction = LightColor.yellow) →
      (Vehicle.update cfg self dt vehicles light ts).target_speed =
        (if max (distance_to_light cfg self - 10) 0 < 50 then 0
         else self.max_speed * (max (distance_to_light cfg self - 10) 0 / 100)) := by
  intro cfg self dt ts vehicles light h0 h100 hcol
  unfold Vehicle.update
  dsimp only
  rw [moveStep_target_speed, speedStep_target_speed]
  unfold targetStep
  dsimp only
  rw [distance_to_light_updCooldown, updCooldown_direction]
  have hss : 0 < distance_to_light cfg self ∧ distance_to_light cfg self < 150 ∧
      (get_light_state light self.direction = LightColor.red ∨
       get_light_state light self.direction = LightColor.yellow) :=
    ⟨h0, by linarith, hcol⟩
  rw [if_pos hss, if_pos ⟨hss, h100⟩]
  split_ifs <;> simp

/-- C2 witness: a vehicle whose front is 70 units before the stop line of
a red light (remaining stop distance 60) gets target speed
`60 × 60/100 = 36`. -/
theorem C2_witness :
    (Vehicle.update cfgW (mkVeh 0 420 0 1 48 60) 1 [] lightR 1).target_speed = 36 := by
  have h := C2_red_light_braking cfgW (mkVeh 0 420 0 1 48 60) 1 1 [] lightR
    (by norm_num [distance_to_light, cfgW, mkVeh])
    (by norm_num [distance_to_light, cfgW, mkVeh])
    (Or.inl rfl)
  rw [h]
  norm_num [distance_to_light, cfgW, mkVeh]

/-- C3: a (non-ambulance) vehicle that is not braking for a light derives
its target speed from the nearest vehicle ahead: `0.9 ×` the leader's
speed when the gap is below `SAFE_DISTANCE`, the leader's speed when the
gap is below `2 × SAFE_DISTANCE`, and `max_speed` otherwise or when no
vehicle is ahead; in the concrete scenario of a follower at `x = 100`
with a leader at `x = 130` (gap below `SAFE_DISTANCE = 80`), the
follower's target becomes `0.9 ×` the leader's speed that tick and its
speed strictly decreases from 50. -/
theorem C3_car_following :
    (∀ (cfg : Config) (light : TrafficLight) (self va : Vehicle) (dt ts : ℚ)
        (vehicles : List Vehicle),
      ¬braking_for_light cfg light self →
      find_vehicle_ahead self vehicles = some va →
      (Vehicle.update cfg self dt vehicles light ts).target_speed =
        (if distance_to_vehicle self va < cfg.SAFE_DISTANCE then va.speed * (9/10)
         else if distance_to_vehicle self va < cfg.SAFE_DISTANCE * 2 then va.speed
         else self.max_speed)) ∧
    (∀ (cfg : Config) (light : TrafficLight) (self : Vehicle) (dt ts : ℚ)
        (vehicles : List Vehicle),
      ¬braking_for_light cfg light self →
      find_vehicle_ahead self vehicles = none →
      (Vehicle.update cfg self dt vehicles light ts).target_speed = self.max_speed) ∧
    ((Vehicle.update cfgW (mkVeh 0 100 0 1 50 60) 1
        [mkVeh 0 100 0 1 50 60, mkVeh 1 130 0 1 40 40] lightG 1).target_speed =
      (mkVeh 1 130 0 1 40 40).speed * (9/10) ∧
     (Vehicle.update cfgW (mkVeh 0 100 0 1 50 60) 1
        [mkVeh 0 100 0 1 50 60, mkVeh 1 130 0 1 40 40] lightG 1).speed <
      (mkVeh 0 100 0 1 50 60).speed) := by
  refine ⟨?_, ?_, ?_⟩
  · intro cfg light self va dt ts vehicles hnb hfa
    unfold Vehicle.update
    dsimp only
    rw [moveStep_target_speed, speedStep_target_speed]
    unfold targetStep
    dsimp only
    rw [find_vehicle_ahead_updCooldown, hfa]
    unfold braking_for_light at hnb
    have hnb' : ¬((0 < distance_to_light cfg (updCooldown self (dt * ts)) ∧
        distance_to_light cfg (updCooldown self (dt * ts)) < 150 ∧
        (get_light_state light (updCooldown self (dt * ts)).direction = LightColor.red ∨
         get_light_state light (updCooldown self (dt * ts)).direction = LightColor.yellow)) ∧
        distance_to_light cfg (updCooldown self (dt * ts)) < 100) := by
      rw [distance_to_light_updCooldown, updCooldown_direction]
      exact hnb
    rw [if_neg hnb']
    dsimp only
    simp only [apply_ite (fun v : Vehicle => v.target_speed),
      apply_ite (fun s : Vehicle => distance_to_vehicle s va),
      apply_ite (fun v : Vehicle => v.max_speed)]
    simp [distance_to_vehicle, distance_to_vehicle_updCooldown]
  · intro cfg light self dt ts vehicles hnb hfa
    unfold Vehicle.update
    dsimp only
    rw [moveStep_target_speed, speedStep_target_speed]
    unfold targetStep
    dsimp only
    rw [find_vehicle_ahead_updCooldown, hfa]
    unfold braking_for_light at hnb
    have hnb' : ¬((0 < distance_to_light cfg (updCooldown self (dt * ts)) ∧
        distance_to_light cfg (updCooldown self (dt * ts)) < 150 ∧
        (get_light_state light (updCooldown self (dt * ts)).direction = LightColor.red ∨
         get_light_state light (updCooldown self (dt * ts)).direction = LightColor.yellow)) ∧
        distance_to_light cfg (updCooldown self (dt * ts)) < 100) := by
      rw [distance_to_light_updCooldown, updCooldown_direction]
      exact hnb
    rw [if_neg hnb']
    dsimp only
    simp only [apply_ite (fun v : Vehicle => v.target_speed),
      apply_ite (fun v : Vehicle => v.stopped_at_light),
      apply_ite (fun v : Vehicle => v.max_speed)]
    split_ifs <;> simp
  · constructor <;>
      norm_num [Vehicle.update, targetStep, speedStep, moveStep, updCooldown,
        find_vehicle_ahead, fva_step, distance_to_vehicle, distance_to_light,
        get_light_state, cfgW, mkVeh, lightG]

/-- C3 witness: the general car-following rule applied to the concrete
two-vehicle scenario (gap 20 < 80) yields target `40 × 0.9 = 36`. -/
theorem C3_witness :
    (Vehicle.update cfgW (mkVeh 0 100 0 1 50 60) 1
        [mkVeh 0 100 0 1 50 60, mkVeh 1 130 0 1 40 40] lightG 1).target_speed = 36 := by
  have h := C3_car_following.1 cfgW lightG (mkVeh 0 100 0 1 50 60)
    (mkVeh 1 130 0 1 40 40) 1 1 [mkVeh 0 100 0 1 50 60, mkVeh 1 130 0 1 40 40]
    (by norm_num [braking_for_light, distance_to_light, get_light_state, cfgW, mkVeh, lightG])
    (by norm_num [find_vehicle_ahead, fva_step, distance_to_vehicle, mkVeh])
  rw [h]
  norm_num [distance_to_vehicle, cfgW, mkVeh]

/-- C1 counterexample: a vehicle already at its `max_speed = 60` whose
leader (gap 90, in the following band `[SAFE, 2×SAFE)`) moves at speed
100 gets `target_speed = 100` and accelerates to `70 > 60`: an update can
produce a speed exceeding the vehicle's own `max_speed`, so the claimed
invariant `speed ≤ max_speed` fails. -/
theorem C1_counterexample :
    ¬((Vehicle.update cfgW (mkVeh 0 0 0 1 60 60) 1
        [mkVeh 0 0 0 1 60 60, mkVeh 1 100 0 1 100 100] lightG 1).speed ≤
      (mkVeh 0 0 0 1 60 60).max_speed) := by
  norm_num [Vehicle.update, targetStep, speedStep, moveStep, updCooldown,
    find_vehicle_ahead, fva_step, distance_to_vehicle, distance_to_light,
    get_light_state, cfgW, mkVeh, lightG]

/-- C1 amended: after any update (normal or ambulance) the speed is
never negative, and it stays at or below the vehicle's own `max_speed`
provided no vehicle in the collection moves faster than that `max_speed`
(the original upper bound fails when a faster leader's speed is taken as
the target — see the counterexample). -/
theorem C1_speed_bounds :
    (∀ (cfg : Config) (self : Vehicle) (dt ts : ℚ) (vehicles : List Vehicle)
        (light : TrafficLight),
      0 ≤ self.speed → 0 ≤ self.acceleration → 0 ≤ dt → 0 ≤ ts →
      0 ≤ (Vehicle.update cfg self dt vehicles light ts).speed) ∧
    (∀ (cfg : Config) (self : Vehicle) (dt ts : ℚ) (vehicles : List Vehicle)
        (light : TrafficLight),
      0 ≤ self.speed → self.speed ≤ self.max_speed → 0 ≤ self.acceleration →
      0 ≤ dt → 0 ≤ ts →
      (∀ v ∈ vehicles, 0 ≤ v.speed ∧ v.speed ≤ self.max_speed) →
      (Vehicle.update cfg self dt vehicles light ts).speed ≤ self.max_speed) ∧
    (∀ (cfg : Config) (self : Vehicle) (dt ts : ℚ) (vehicles : List Vehicle)
        (light : TrafficLight),
      0 ≤ self.speed → 0 ≤ self.acceleration → 0 ≤ dt → 0 ≤ ts →
      0 ≤ (Ambulance.update cfg self dt vehicles light ts).1.speed) ∧
    (∀ (cfg : Config) (self : Vehicle) (dt ts : ℚ) (vehicles : List Vehicle)
        (light : TrafficLight),
      0 ≤ self.speed → self.speed ≤ self.max_speed → 0 ≤ self.acceleration →
      0 ≤ dt → 0 ≤ ts →
      (∀ v ∈ vehicles, 0 ≤ v.speed ∧ v.speed ≤ self.max_speed) →
      (Ambulance.update cfg self dt vehicles light ts).1.speed ≤ self.max_speed) := by
  refine ⟨?_, ?_, ?_, ?_⟩
  · intro cfg self dt ts vehicles light h0 ha hdt hts
    unfold Vehicle.update
    dsimp only
    rw [moveStep_speed]
    refine speedStep_nonneg ?_ ?_ (mul_nonneg hdt hts)
    · simpa using h0
    · simpa using ha
  · intro cfg self dt ts vehicles light h0 hsm ha hdt hts hveh
    unfold Vehicle.update
    dsimp only
    rw [moveStep_speed]
    refine speedStep_le ?_ ?_ (h0.trans hsm) ?_ (mul_nonneg hdt hts)
    · simpa using hsm
    · have hmax' : (0:ℚ) ≤ (updCooldown self (dt * ts)).max_speed := by
        simpa using h0.trans hsm
      have hveh' : ∀ v ∈ vehicles,
          0 ≤ v.speed ∧ v.speed ≤ (updCooldown self (dt * ts)).max_speed := by
        intro v hv
        simpa using hveh v hv
      simpa using targetStep_target_le hmax' hveh'
    · simpa using ha
  · intro cfg self dt ts vehicles light h0 ha hdt hts
    unfold Ambulance.update
    dsimp only
    rw [moveStep_speed]
    refine speedStep_nonneg ?_ ?_ (mul_nonneg hdt hts)
    · simpa using h0
    · simpa using ha
  · intro cfg self dt ts vehicles light h0 hsm ha hdt hts hveh
    unfold Ambulance.update
    dsimp only
    rw [moveStep_speed]
    refine speedStep_le ?_ ?_ (h0.trans hsm) ?_ (mul_nonneg hdt hts)
    · simpa using hsm
    · have hmax' : (0:ℚ) ≤ (updCooldown
          { self with siren_state := fmod2 (self.siren_state + dt * ts * 5) }
          (dt * ts)).max_speed := by
        simpa using h0.trans hsm
      have hveh' : ∀ v ∈ clear_path cfg (updCooldown
            { self with siren_state := fmod2 (self.siren_state + dt * ts * 5) }
            (dt * ts)) vehicles,
          0 ≤ v.speed ∧ v.speed ≤ (updCooldown
            { self with siren_state := fmod2 (self.siren_state + dt * ts * 5) }
            (dt * ts)).max_speed := by
        intro v hv
        have hq := clear_path_speed cfg _ (fun q => 0 ≤ q ∧ q ≤ self.max_speed)
          vehicles hveh v hv
        simpa using hq
      simpa using ambTargetStep_target_le hmax' hveh'
    · simpa using ha

/-- C1 witness: a vehicle below its max speed, behind a slower leader,
stays within `[0, max_speed]` after the update. -/
theorem C1_witness :
    (Vehicle.update cfgW (mkVeh 0 0 0 1 50 60) 1 [mkVeh 1 100 0 1 40 40]
        lightG 1).speed ≤ (mkVeh 0 0 0 1 50 60).max_speed := by
  refine C1_speed_bounds.2.1 cfgW (mkVeh 0 0 0 1 50 60) 1 1 [mkVeh 1 100 0 1 40 40]
    lightG (by norm_num [mkVeh]) (by norm_num [mkVeh]) (by norm_num [mkVeh])
    (by norm_num) (by norm_num) ?_
  intro v hv
  rcases List.mem_singleton.mp hv with rfl
  norm_num [mkVeh]

/-- C6 counterexample: `can_change_lane` accepts a target lane outside
the vehicle's direction group — a rightbound (direction +1, lane 0)
vehicle with expired cooldown may "change" into opposing lane 2, because
the code only bounds the lane index by `[0, NUM_LANES)` and opposing
vehicles in the target lane are skipped by the direction filter. -/
theorem C6_counterexample :
    can_change_lane cfgW (mkVeh 0 100 0 1 50 50) 2 [mkVeh 0 100 0 1 50 50] = true := by
  norm_num [can_change_lane, gap_front, gap_rear, cfgW, mkVeh]

/-- C6 amended: `can_change_lane` fails exactly when the cooldown is
active, the target lane is outside the global range `[0, NUM_LANES)`
(not the per-direction group), or some same-direction vehicle in the
target lane overlaps with a front or rear clearance below the minimum
gap; the direction-group restriction is enforced only by the caller
`attempt_lane_change`, whose candidate lanes always stay in the group;
and a lane-change attempt either leaves the vehicle entirely unchanged or
applies a full change to an eligible candidate lane (never partially). -/
theorem C6_lane_change_eligibility :
    (∀ (cfg : Config) (self : Vehicle) (target_lane : ℤ) (vehicles : List Vehicle),
      can_change_lane cfg self target_lane vehicles = false ↔
        (0 < self.lane_change_cooldown ∨ target_lane < 0 ∨
          cfg.NUM_LANES ≤ target_lane ∨
          ∃ v ∈ vehicles, ¬(v.id = self.id) ∧ v.lane = target_lane ∧
            v.direction = self.direction ∧
            (gap_front self v > -self.length ∧ gap_rear self v > -self.length) ∧
            (|gap_front self v| < cfg.LANE_CHANGE_MIN_GAP ∨
             |gap_rear self v| < cfg.LANE_CHANGE_MIN_GAP))) ∧
    (∀ (self : Vehicle) (l : ℤ), l ∈ lanes_to_try self →
      (self.direction = 1 → l = 0 ∨ l = 1) ∧ (self.direction ≠ 1 → l = 2 ∨ l = 3)) ∧
    (∀ (cfg : Config) (self : Vehicle) (vehicles : List Vehicle),
      attempt_lane_change cfg self vehicles = self ∨
        ∃ l, l ∈ lanes_to_try self ∧ can_change_lane cfg self l vehicles = true ∧
          attempt_lane_change cfg self vehicles = apply_lane_change cfg self l) := by
  refine ⟨?_, ?_, attempt_lane_change_cases⟩
  · intro cfg self target_lane vehicles
    unfold can_change_lane
    split_ifs with h1 h2
    · exact iff_of_true rfl (Or.inl h1)
    · refine iff_of_true rfl ?_
      rcases h2 with h | h
      · exact Or.inr (Or.inl h)
      · exact Or.inr (Or.inr (Or.inl h))
    · rw [List.all_eq_false]
      constructor
      · rintro ⟨v, hv, hfv⟩
        refine Or.inr (Or.inr (Or.inr ⟨v, hv, ?_⟩))
        by_cases hg : v.id = self.id ∨ v.lane ≠ target_lane ∨ v.direction ≠ self.direction
        · rw [if_pos hg] at hfv
          exact absurd rfl hfv
        · rw [if_neg hg] at hfv
          push_neg at hg
          by_cases hov : gap_front self v > -self.length ∧ gap_rear self v > -self.length
          · rw [if_pos hov] at hfv
            simp only [decide_eq_true_eq, not_not] at hfv
            exact ⟨hg.1, hg.2.1, hg.2.2, hov, hfv⟩
          · rw [if_neg hov] at hfv
            exact absurd rfl hfv
      · rintro (h | h | h | ⟨v, hv, hid, hlane, hdir, hov, hsmall⟩)
        · exact absurd h h1
        · exact absurd (Or.inl h) h2
        · exact absurd (Or.inr h) h2
        · refine ⟨v, hv, ?_⟩
          rw [if_neg (by rintro (h | h | h) <;> tauto), if_pos hov]
          simp only [decide_eq_true_eq, not_not]
          exact hsmall
  · intro self l hl
    unfold lanes_to_try at hl
    split_ifs at hl <;> simp_all

/-- C6 witness: a negative target lane is rejected. -/
theorem C6_witness :
    can_change_lane cfgW (mkVeh 0 100 0 1 50 50) (-1) [] = false :=
  (C6_lane_change_eligibility.1 cfgW (mkVeh 0 100 0 1 50 50) (-1) []).mpr
    (Or.inr (Or.inl (by norm_num)))

lemma clear_path_go_congr (cfg : Config) (self1 self2 : Vehicle)
    (h : ∀ v, clear_path_cond self1 v ↔ clear_path_cond self2 v) :
    ∀ (n i : ℕ) (vs : List Vehicle),
      clear_path_go cfg self1 n i vs = clear_path_go cfg self2 n i vs := by
  intro n
  induction n with
  | zero => intro i vs; rfl
  | succ n ih =>
    intro i vs
    unfold clear_path_go
    cases hv : vs[i]? with
    | none => rfl
    | some v =>
      dsimp only
      rw [if_congr (h v) rfl rfl]
      exact ih (i + 1) _

lemma clear_path_cond_updCooldown (s : Vehicle) (d : ℚ) (v : Vehicle) :
    clear_path_cond (updCooldown s d) v ↔ clear_path_cond s v := by
  unfold clear_path_cond
  rw [distance_to_vehicle_updCooldown]
  simp

lemma clear_path_updCooldown (cfg : Config) (s : Vehicle) (d : ℚ)
    (vs : List Vehicle) :
    clear_path cfg (updCooldown s d) vs = clear_path cfg s vs := by
  unfold clear_path
  exact clear_path_go_congr cfg (updCooldown s d) s
    (clear_path_cond_updCooldown s d) vs.length 0 vs

lemma clear_path_siren (cfg : Config) (s : Vehicle) (e : ℚ) (vs : List Vehicle) :
    clear_path cfg { s with siren_state := e } vs = clear_path cfg s vs := by
  unfold clear_path
  exact clear_path_go_congr cfg { s with siren_state := e } s
    (fun v => Iff.rfl) vs.length 0 vs

/-- C7 counterexample: an ambulance with a single non-ambulance blocker
100 units directly ahead in its lane, cooldown expired, and empty
adjacent lane 1: the clearing pass calls the blocker's
`attempt_lane_change`, which returns immediately because the blocker has
no vehicle ahead of itself — so the blocker's lane does NOT change during
the ambulance's update tick, contradicting the claimed scenario. -/
theorem C7_counterexample :
    (Ambulance.update cfgW ambV 1 [ambV, blkV] lightG 1).2.map Vehicle.lane =
      [0, 0] := by
  norm_num [Ambulance.update, clear_path, clear_path_go, clear_path_cond,
    attempt_lane_change, find_vehicle_ahead, fva_step, distance_to_vehicle,
    lanes_to_try, can_change_lane, apply_lane_change, updCooldown, fmod2,
    ambV, blkV, mkVeh, cfgW, lightG]

/-- C7 amended: during its update (before selecting its own target speed)
the ambulance's clearing pass runs over the list: the returned list is
exactly `clear_path` of the incoming list; every vehicle that does not
match the scan guard (non-ambulance, same lane and direction, gap
strictly between 0 and 150) is left unchanged; and the issued
`attempt_lane_change` is the ordinary one, which declines when the
blocker has no leader within `2 × SAFE_DISTANCE` — the blocker's lane
changes in the claimed scenario only when such a leader exists, as in the
concrete three-vehicle scenario below (blocker moves from lane 0 to
lane 1). -/
theorem C7_ambulance_clearing :
    (∀ (cfg : Config) (self : Vehicle) (dt ts : ℚ) (vehicles : List Vehicle)
        (light : TrafficLight),
      (Ambulance.update cfg self dt vehicles light ts).2 =
        clear_path cfg self vehicles) ∧
    (∀ (cfg : Config) (self : Vehicle) (vs : List Vehicle) (j : ℕ) (v : Vehicle),
      vs[j]? = some v → ¬clear_path_cond self v →
      (clear_path cfg self vs)[j]? = some v) ∧
    ((clear_path cfgW ambV [ambV, blkV, ldrV]).map Vehicle.lane = [0, 1, 0]) := by
  refine ⟨?_, ?_, ?_⟩
  · intro cfg self dt ts vehicles light
    unfold Ambulance.update
    dsimp only
    rw [clear_path_updCooldown, clear_path_siren]
  · intro cfg self vs j v hj hcond
    exact clear_path_not_cond cfg self vs j v hj hcond
  · norm_num [clear_path, clear_path_go, clear_path_cond, attempt_lane_change,
      find_vehicle_ahead, fva_step, distance_to_vehicle, lanes_to_try,
      can_change_lane, apply_lane_change, gap_front, gap_rear,
      ambV, blkV, ldrV, mkVeh, cfgW]
    simp
    norm_num [clear_path_cond, attempt_lane_change, find_vehicle_ahead, fva_step,
      distance_to_vehicle, lanes_to_try, can_change_lane, apply_lane_change,
      gap_front, gap_rear, ambV, blkV, ldrV, mkVeh, cfgW]

/-- C7 witness: in the two-vehicle scenario the ambulance itself (index 0)
fails the scan guard and is untouched by the clearing pass. -/
theorem C7_witness :
    (clear_path cfgW ambV [ambV, blkV])[0]? = some ambV := by
  refine C7_ambulance_clearing.2.1 cfgW ambV [ambV, blkV] 0 ambV rfl ?_
  intro hc
  exact hc.1 (Or.inl rfl)

/-- C8 counterexample: a vehicle at `x = 150` (same lane and direction)
is more than 200 units away from the entry point `x = -100`, so by the
claim the spawn should be inserted; the code nevertheless skips it,
because its buffer test is `v.x < 200` (measured from the road edge, a
300-unit reach from the entry point), not 200 units from the entry
point. -/
theorem C8_counterexample :
    (∀ v ∈ [vS8], ¬(v.lane = 0 ∧ v.direction = 1 ∧ |v.x - (-100 : ℚ)| < 200)) ∧
    spawn_vehicle cfgW true 0 (fun x _ l d => mkVeh 5 x l d 50 50) [vS8] = [vS8] := by
  constructor
  · intro v hv
    rcases List.mem_singleton.mp hv with rfl
    norm_num [vS8, mkVeh]
  · norm_num [spawn_vehicle, vS8, mkVeh, cfgW]

/-- C8 amended: a spawn request inserts the new vehicle at its lane's
entry point (`x = -100` rightbound, `SCREEN_WIDTH + 100` leftbound) if
and only if no existing same-lane, same-direction vehicle has
`x < 200` (rightbound) resp. `x > SCREEN_WIDTH - 200` (leftbound) — a
200-unit buffer measured from the road edge, i.e. 300 units from the
entry point; when the check fails the spawn is silently skipped for that
tick and the vehicle collection is left unchanged. -/
theorem C8_spawn_buffer :
    ∀ (cfg : Config) (dirRight : Bool) (lane : ℤ) (mk : ℚ → ℚ → ℤ → ℤ → Vehicle)
      (vehicles : List Vehicle),
      ((∃ v ∈ vehicles, v.lane = lane ∧
          v.direction = (if dirRight then (1:ℤ) else -1) ∧
          (((if dirRight then (1:ℤ) else -1) = 1 ∧ v.x < 200) ∨
           ((if dirRight then (1:ℤ) else -1) = -1 ∧
            v.x > cfg.SCREEN_WIDTH - 200))) →
        spawn_vehicle cfg dirRight lane mk vehicles = vehicles) ∧
      (¬(∃ v ∈ vehicles, v.lane = lane ∧
          v.direction = (if dirRight then (1:ℤ) else -1) ∧
          (((if dirRight then (1:ℤ) else -1) = 1 ∧ v.x < 200) ∨
           ((if dirRight then (1:ℤ) else -1) = -1 ∧
            v.x > cfg.SCREEN_WIDTH - 200))) →
        spawn_vehicle cfg dirRight lane mk vehicles =
          vehicles ++ [mk (if dirRight then -100 else cfg.SCREEN_WIDTH + 100)
            (cfg.ROAD_Y_START + (lane : ℚ) * cfg.LANE_WIDTH +
              (⌊(cfg.LANE_WIDTH - cfg.CAR_NORMAL_WIDTH) / 2⌋ : ℤ))
            lane (if dirRight then (1:ℤ) else -1)]) := by
  intro cfg dirRight lane mk vehicles
  constructor
  · rintro ⟨v, hv, hcond⟩
    unfold spawn_vehicle
    dsimp only
    rw [if_neg]
    intro hall
    rw [List.all_eq_true] at hall
    have := hall v hv
    rw [decide_eq_true_eq] at this
    exact this hcond
  · intro hnex
    unfold spawn_vehicle
    dsimp only
    rw [if_pos]
    rw [List.all_eq_true]
    intro v hv
    rw [decide_eq_true_eq]
    intro hc
    exact hnex ⟨v, hv, hc⟩

/-- C8 witness: spawning into an empty collection succeeds and appends
exactly one vehicle at the rightbound entry point. -/
theorem C8_witness :
    spawn_vehicle cfgW true 0 (fun x _ l d => mkVeh 5 x l d 50 50) [] =
      [mkVeh 5 (-100) 0 1 50 50] := by
  have h := (C8_spawn_buffer cfgW true 0 (fun x _ l d => mkVeh 5 x l d 50 50) []).2
    (by simp)
  rw [h]
  simp

end Traffic
